import Mathlib

/-!
# Task Temporal Engine — shallow embedding

A shallow embedding of the pure temporal logic of the task tracker:
elapsed-time accumulation, suspension evaluation, recurrence lateness,
deadline status resolution, the range filter and the metrics used by the
completion rate.

Modelling conventions:
* An instant is an `Int`: milliseconds since the epoch, read in one fixed
  local timezone with no DST (the engine's date math is local-calendar-day
  based by design).  Under a fixed offset we take the offset to be zero
  without loss of generality, so `getFullYear/getMonth/getDate` triples of
  two instants agree exactly when their `dayIndex` values agree.
* `Math.floor(a / b)` on an exact quotient of integers with `b > 0` is
  integer floor division, which is `Int` division (`Int./` is Euclidean
  division and agrees with floor division for positive divisors).
* The ambient clock (`new Date()` / `Date.now()`) is passed explicitly as a
  `now : Int` parameter, so every function is a pure function of its inputs.
* `null`/`undefined` fields become `Option`.
-/

namespace TaskEngine

/-- Milliseconds in one calendar day. -/
def msPerDay : Int := 86400000

/-- The calendar day an instant falls on (day number since the epoch). -/
def dayIndex (t : Int) : Int := t / msPerDay

/-- Milliseconds elapsed since the instant's local midnight. -/
def msOfDay (t : Int) : Int := t % msPerDay

/-- `Date.prototype.getHours`. -/
def getHours (t : Int) : Int := msOfDay t / 3600000

/-- `Date.prototype.getMinutes`. -/
def getMinutes (t : Int) : Int := msOfDay t % 3600000 / 60000

/-- `Date.prototype.getDay` (0 = Sunday); epoch day 0 was a Thursday (4). -/
def getDay (t : Int) : Int := (dayIndex t + 4) % 7

/-- `isSameDay` (utils): equal year, month and day-of-month — under the fixed
local timezone, exactly equality of calendar-day indices. -/
def isSameDay (d1 d2 : Int) : Bool := dayIndex d1 == dayIndex d2

/-- `setHours(23, 59, 59, 999)`: the last millisecond of the instant's
calendar day. -/
def endOfDay (t : Int) : Int := dayIndex t * msPerDay + (msPerDay - 1)

/-- `Math.ceil(a / b)` for a positive divisor `b`, computed exactly:
the ceiling of the rational `a / b` is `-((-a) / b)` in floor division. -/
def ceilDiv (a b : Int) : Int := -(-a / b)

/-- `TaskStatus` (types): the four stored lifecycle states. -/
inductive TaskStatus where
  | TODO
  | COMPLETED
  | LATE
  | CANCELLED
deriving DecidableEq, Repr

/-- `Task` (types), restricted to the fields the temporal engine reads.
Instant fields are epoch milliseconds; `recurringTime` is the parsed
`"HH:MM"` cutoff as an (hour, minute) pair. -/
structure Task where
  deadline : Option Int := none
  isPriority : Bool := false
  status : TaskStatus := TaskStatus.TODO
  createdAt : Int := 0
  completedAt : Option Int := none
  elapsedTimeSeconds : Int := 0
  timerStartedAt : Option Int := none
  isRecurring : Bool := false
  recurringDays : Option (List Int) := none
  recurringTime : Option (Int × Int) := none
  lastRecurringCompletion : Option Int := none
  isSuspended : Bool := false
  suspendedUntil : Option Int := none
deriving Repr

/-- `calculateCurrentTaskTime` (utils): total worked seconds including the
currently running session.  `Math.floor((now - start) / 1000)` is floor
division by 1000. -/
def calculateCurrentTaskTime (task : Task) (now : Int) : Int :=
  match task.timerStartedAt with
  | none => task.elapsedTimeSeconds
  | some start => task.elapsedTimeSeconds + (now - start) / 1000

/-- `isDueSoon` (utils): `diffDays = (deadline - now) / msPerDay` as an exact
quotient; soon means `0 < diffDays ∧ diffDays ≤ 1`, i.e. the deadline is
strictly in the future and at most one day away. -/
def isDueSoon (deadline : Option Int) (now : Int) : Bool :=
  match deadline with
  | none => false
  | some d =>
    let diffTime := d - now
    decide (0 < diffTime) && decide (diffTime ≤ msPerDay)

/-- `isDueToday` (utils). -/
def isDueToday (deadline : Option Int) (now : Int) : Bool :=
  match deadline with
  | none => false
  | some d => isSameDay now d

/-- `isPastDeadline` (utils): the precise instant has passed. -/
def isPastDeadline (deadline : Option Int) (now : Int) : Bool :=
  match deadline with
  | none => false
  | some d => decide (d < now)

/-- `getDaysOverdue` (utils): 0 when not yet past the deadline, otherwise
`Math.ceil(diff / msPerDay)` with the `days === 0` result bumped to 1. -/
def getDaysOverdue (deadline : Option Int) (now : Int) : Int :=
  match deadline with
  | none => 0
  | some d =>
    if now ≤ d then 0
    else
      let diffTime := now - d
      let days := ceilDiv diffTime msPerDay
      if days = 0 then 1 else days

/-- `isTaskSuspended` (utils): suspended right now.  A bound date is
inclusive of its whole calendar day (`setHours(23,59,59,999)`). -/
def isTaskSuspended (task : Task) (now : Int) : Bool :=
  if !task.isRecurring || !task.isSuspended then false
  else
    match task.suspendedUntil with
    | none => true
    | some su => decide (now ≤ endOfDay su)

/-- `!start || start <= x`: an optional lower window bound admits `x`. -/
def inLower (start? : Option Int) (x : Int) : Bool :=
  match start? with
  | none => true
  | some s => decide (s ≤ x)

/-- `!end || x <= end`: an optional upper window bound admits `x`. -/
def inUpper (end? : Option Int) (x : Int) : Bool :=
  match end? with
  | none => true
  | some e => decide (x ≤ e)

/-- `isRecurringLate` (Dashboard metrics): is the recurring task late right
now, relative to the reporting window `[start?, end?]`?  The `today` and
`now` reads in the source are the same evaluation instant. -/
def isRecurringLate (start? end? : Option Int) (t : Task) (now : Int) : Bool :=
  match t.recurringDays, t.recurringTime with
  | some days, some (h, m) =>
    if !t.isRecurring then false
    else if isTaskSuspended t now then false
    else if !(inLower start? now && inUpper end? now) then false
    else if !days.contains (getDay now) then false
    else if (match t.lastRecurringCompletion with
             | some c => isSameDay c now
             | none => false) then false
    else if getHours now > h then true
    else if getHours now == h && getMinutes now > m then true
    else false
  | _, _ => false

/-- `isRecurringDoneInPeriod` (Dashboard metrics): the recurring task's last
completion falls inside the reporting window. -/
def isRecurringDoneInPeriod (start? end? : Option Int) (t : Task) : Bool :=
  if !t.isRecurring then false
  else
    match t.lastRecurringCompletion with
    | none => false
    | some d => inLower start? d && inUpper end? d

/-- The day-scanning loop of the recurring branch of the filter: starting at
`current` (midnight of the window start), advance one calendar day per step
while `current <= end`, succeeding when some day's weekday is in `days`.
`fuel` bounds the number of steps; callers pass one unit per day of the
window, which is exactly the number of iterations the source loop runs. -/
def anyScheduledDay (days : List Int) : Nat → Int → Int → Bool
  | 0, _, _ => false
  | fuel + 1, current, endT =>
    if current ≤ endT then
      if days.contains (getDay current) then true
      else anyScheduledDay days fuel (current + msPerDay) endT
    else false

/-- `filteredTasks` (Dashboard), decision for one task: does the task belong
to the reporting window `[start?, end?]` evaluated at instant `now`? -/
def taskInFilter (start? end? : Option Int) (now : Int) (t : Task) : Bool :=
  let isCurrentView := inLower start? now && inUpper end? now
  match t.isRecurring, t.recurringDays with
  | true, some days =>
    if isCurrentView && isTaskSuspended t now then false
    else if (match t.lastRecurringCompletion with
             | some recurDate => inLower start? recurDate && inUpper end? recurDate
             | none => false) then true
    else
      match start?, end? with
      | some s, some e =>
        let diffDays := ceilDiv (e - s) msPerDay
        if diffDays ≥ 365 then true
        else anyScheduledDay days ((e - s).toNat / 86400000 + 1) s e
      | _, _ => true
  | _, _ =>
    if t.status = TaskStatus.COMPLETED then
      match t.completedAt with
      | none => false
      | some c => inLower start? c && inUpper end? c
    else if t.status = TaskStatus.CANCELLED then
      let d := t.deadline.getD t.createdAt
      inLower start? d && inUpper end? d
    else if isCurrentView then
      match t.deadline with
      | some d => inUpper end? d
      | none => true
    else
      let d := t.deadline.getD t.createdAt
      inLower start? d && inUpper end? d

/-- `filteredTasks` (Dashboard): when no bound is set the whole collection is
returned unchanged; otherwise the per-task decision filters it. -/
def filteredTasks (start? end? : Option Int) (now : Int) (tasks : List Task) :
    List Task :=
  if start?.isNone && end?.isNone then tasks
  else tasks.filter (taskInFilter start? end? now)

/-- `executeStatusUpdate` (TaskModal): apply a status change, clearing the
priority flag on a terminal status, defaulting a missing deadline to `now`
on completion, and settling a running timer. -/
def executeStatusUpdate (task : Task) (newStatus : TaskStatus) (now : Int) :
    Task :=
  let updatedPriority :=
    if newStatus = TaskStatus.COMPLETED ∨ newStatus = TaskStatus.CANCELLED then
      false
    else task.isPriority
  let base := { task with status := newStatus, isPriority := updatedPriority }
  let withDeadline :=
    if newStatus = TaskStatus.COMPLETED ∧ task.deadline = none then
      { base with deadline := some now }
    else base
  if (newStatus = TaskStatus.COMPLETED ∨ newStatus = TaskStatus.CANCELLED) ∧
      task.timerStartedAt ≠ none then
    { withDeadline with
        elapsedTimeSeconds := calculateCurrentTaskTime task now
        timerStartedAt := none }
  else withDeadline

/-- `standardCompletedCount` (Dashboard metrics). -/
def standardCompletedCount (taskList : List Task) : Nat :=
  (taskList.filter (fun t => t.status = TaskStatus.COMPLETED)).length

/-- `recurringCompletedCount` (Dashboard metrics). -/
def recurringCompletedCount (start? end? : Option Int) (taskList : List Task) :
    Nat :=
  (taskList.filter (isRecurringDoneInPeriod start? end?)).length

/-- `metrics.completed` (Dashboard): standard plus recurring completions. -/
def completedMetric (start? end? : Option Int) (taskList : List Task) : Nat :=
  standardCompletedCount taskList + recurringCompletedCount start? end? taskList

/-- Round a nonnegative rational to the nearest IEEE-754 binary64 value
(53-bit significand, round-to-nearest, ties to even), with unbounded
exponent range — exact for every double arising in the rate computation,
whose operands are array counts (well below `2^53`, hence exactly
representable) and whose results are moderate rates.  `Int.log 2 q` is
`⌊log₂ q⌋`, so `q * 2 ^ s` scales `q` into the mantissa range
`[2^52, 2^53)`. -/
def rnd53 (q : ℚ) : ℚ :=
  if q ≤ 0 then 0
  else
    let s : Int := 52 - Int.log 2 q
    let x := q * (2 : ℚ) ^ s
    let n := ⌊x⌋
    let frac := x - (n : ℚ)
    let m : Int :=
      if frac < 1 / 2 then n
      else if 1 / 2 < frac then n + 1
      else if n % 2 = 0 then n else n + 1
    (m : ℚ) * (2 : ℚ) ^ (-s)

/-- `Math.round` on the exact value of a nonnegative double: the nearest
integer, ties toward positive infinity, i.e. `⌊q + 1/2⌋`. -/
def jsRound (q : ℚ) : Int := ⌊q + 1 / 2⌋

/-- The double-precision evaluation of `(completed / total) * 100`:
`completed` and `total` convert to doubles exactly, then the division and
the multiplication each round once. -/
def rateDouble (completed total : Nat) : ℚ :=
  rnd53 (rnd53 ((completed : ℚ) / (total : ℚ)) * 100)

/-- `completionRate` (Dashboard): `Math.round((completed / total) * 100)`
evaluated in double precision, guarded against an empty filtered set. -/
def completionRate (start? end? : Option Int) (taskList : List Task) : Int :=
  if 0 < taskList.length then
    jsRound (rateDouble (completedMetric start? end? taskList) taskList.length)
  else 0

/-! ## Claim theorems -/

/-- C8: a task with an absent deadline is never past its deadline, never due
soon, and has zero days overdue, for every instant `now` — the absent
deadline is "not set," not an error. -/
theorem c8_null_deadline_never_overdue (now : Int) :
    isPastDeadline none now = false ∧ isDueSoon none now = false ∧
    getDaysOverdue none now = 0 :=
  ⟨rfl, rfl, rfl⟩

/-- C7: with the stored fields fixed (timer not stopped in between), the
elapsed-time computation is monotone non-decreasing in `now`. -/
theorem c7_elapsed_monotone (t : Task) (now1 now2 : Int) (h : now1 ≤ now2) :
    calculateCurrentTaskTime t now1 ≤ calculateCurrentTaskTime t now2 := by
  cases hs : t.timerStartedAt with
  | none => simp [calculateCurrentTaskTime, hs]
  | some s =>
    simp only [calculateCurrentTaskTime, hs]
    omega

/-- Witness for C7 at a concrete task and pair of instants. -/
theorem c7_elapsed_monotone_witness :
    calculateCurrentTaskTime
        ({ elapsedTimeSeconds := 3, timerStartedAt := some 1000 } : Task) 2000 ≤
      calculateCurrentTaskTime
        ({ elapsedTimeSeconds := 3, timerStartedAt := some 1000 } : Task) 9000 :=
  c7_elapsed_monotone _ 2000 9000 (by decide)

/-- C1 counterexample: with elapsed base 5 s and a timer started at instant
10000 ms, evaluating at `now = 0` (clock skew, now before the start) returns
−5 — below the stored base and negative, so the clamping the claim states
does not happen in the code. -/
theorem c1_clamp_counterexample :
    calculateCurrentTaskTime
        ({ elapsedTimeSeconds := 5, timerStartedAt := some 10000 } : Task) 0 = -5 ∧
    (-5 : Int) < 5 := by
  exact ⟨rfl, by decide⟩

/-- C1 amended: with a running timer the computation returns
`elapsedTimeSeconds + floor((now − timerStartedAt) / 1000)` with no
clamping: the result is at least the stored base when `now` is at or after
the start, but when `now` is before the start the negative delta is kept,
so the result drops below `elapsedTimeSeconds` (and can be negative). -/
theorem c1_elapsed_formula_no_clamp (t : Task) (s now : Int)
    (hs : t.timerStartedAt = some s) :
    calculateCurrentTaskTime t now = t.elapsedTimeSeconds + (now - s) / 1000 ∧
    (s ≤ now → t.elapsedTimeSeconds ≤ calculateCurrentTaskTime t now) ∧
    (now < s → calculateCurrentTaskTime t now < t.elapsedTimeSeconds) := by
  refine ⟨?_, ?_, ?_⟩
  · simp [calculateCurrentTaskTime, hs]
  · intro h
    simp only [calculateCurrentTaskTime, hs]
    omega
  · intro h
    simp only [calculateCurrentTaskTime, hs]
    omega

/-- Witness for C1's amended claim at a concrete running task. -/
theorem c1_elapsed_formula_no_clamp_witness :
    calculateCurrentTaskTime
        ({ elapsedTimeSeconds := 7, timerStartedAt := some 0 } : Task) 5500 = 12 := by
  have h := c1_elapsed_formula_no_clamp
    ({ elapsedTimeSeconds := 7, timerStartedAt := some 0 } : Task) 0 5500 rfl
  rw [h.1]
  decide

/-- C5: with a deadline present, `daysOverdue` is 0 exactly when
`now ≤ deadline`; once past, it equals `ceil((now − deadline) / 86400s)` and
is at least 1 — overdue by minutes still reports a full day. -/
theorem c5_daysOverdue_spec (d now : Int) :
    (getDaysOverdue (some d) now = 0 ↔ now ≤ d) ∧
    (d < now →
      getDaysOverdue (some d) now = ceilDiv (now - d) msPerDay ∧
      1 ≤ getDaysOverdue (some d) now) := by
  have hred : getDaysOverdue (some d) now =
      if now ≤ d then 0
      else if -(-(now - d) / 86400000) = 0 then 1
      else -(-(now - d) / 86400000) := by
    simp only [getDaysOverdue, ceilDiv, msPerDay]
  rw [hred]
  constructor
  · by_cases h : now ≤ d
    · simp [h]
    · rw [if_neg h]
      split <;> omega
  · intro h
    rw [if_neg (by omega), if_neg (by omega)]
    constructor
    · simp only [ceilDiv, msPerDay]
    · omega

/-- Witness for C5: two minutes past the deadline reports 1 day overdue,
and at the deadline itself reports 0. -/
theorem c5_daysOverdue_witness :
    getDaysOverdue (some 1000000) 1120000 = 1 ∧
    getDaysOverdue (some 1000000) 1000000 = 0 := by
  constructor
  · have h := (c5_daysOverdue_spec 1000000 1120000).2 (by decide)
    rw [h.1]
    decide
  · exact (c5_daysOverdue_spec 1000000 1000000).1.mpr (by decide)

/-- C3: the suspension evaluator returns false when the recurrence or
suspension flag is off; true for every `now` when suspended with no bound;
and with a bound, true exactly while `now`'s calendar day is on or before
the bound's calendar day (time-of-day on the bound day is irrelevant; the
task resumes the following calendar day). -/
theorem c3_suspension_spec (t : Task) (now : Int) :
    ((t.isRecurring = false ∨ t.isSuspended = false) →
      isTaskSuspended t now = false) ∧
    (t.isRecurring = true → t.isSuspended = true → t.suspendedUntil = none →
      isTaskSuspended t now = true) ∧
    (∀ su, t.isRecurring = true → t.isSuspended = true →
      t.suspendedUntil = some su →
      (isTaskSuspended t now = true ↔ dayIndex now ≤ dayIndex su)) := by
  unfold isTaskSuspended endOfDay dayIndex msPerDay
  refine ⟨?_, ?_, ?_⟩
  · rintro (h | h) <;> simp [h]
  · intro h1 h2 h3
    simp [h1, h2, h3]
  · intro su h1 h2 h3
    simp only [h1, h2, h3, Bool.not_true, Bool.or_self, Bool.false_eq_true,
      if_false, decide_eq_true_eq]
    omega

/-- Witness for C3: a task suspended until day 10 is still suspended at the
last millisecond of day 10. -/
theorem c3_suspension_witness :
    isTaskSuspended
        ({ isRecurring := true, isSuspended := true,
           suspendedUntil := some 864000000 } : Task) 950399999 = true := by
  have h := (c3_suspension_spec
    ({ isRecurring := true, isSuspended := true,
       suspendedUntil := some 864000000 } : Task) 950399999).2.2
    864000000 rfl rfl rfl
  exact h.mpr (by decide)

/-- C10: with both window bounds absent, the range filter returns the task
collection unchanged; the open window nevertheless counts as containing
`now` on both sides, and even a currently suspended recurring task stays in
the result. -/
theorem c10_open_window_identity (now : Int) (tasks : List Task) :
    filteredTasks none none now tasks = tasks ∧
    (inLower none now && inUpper none now) = true ∧
    (∀ t, t ∈ tasks → isTaskSuspended t now = true →
      t ∈ filteredTasks none none now tasks) := by
  refine ⟨rfl, rfl, ?_⟩
  intro t ht _
  simpa [filteredTasks] using ht

/-- Witness for C10: a suspended recurring task is kept by the fully open
window. -/
theorem c10_open_window_identity_witness :
    ({ isRecurring := true, isSuspended := true } : Task) ∈
      filteredTasks none none 0
        [({ isRecurring := true, isSuspended := true } : Task)] :=
  (c10_open_window_identity 0 _).2.2 _ (by simp) rfl

/-- C4: for a non-recurring task whose stored status is neither Completed
nor Cancelled, under a bounded window `[s, e]` containing `now`, the range
filter keeps the task exactly when it has no deadline or its deadline is not
after `e`; in particular a deadline before `s` (overdue from the past) is
still included. -/
theorem c4_active_current_window (s e now : Int) (t : Task)
    (hrec : t.isRecurring = false)
    (hc : t.status ≠ TaskStatus.COMPLETED)
    (hx : t.status ≠ TaskStatus.CANCELLED)
    (h1 : s ≤ now) (h2 : now ≤ e) :
    taskInFilter (some s) (some e) now t =
      (match t.deadline with
       | none => true
       | some d => decide (d ≤ e)) ∧
    (∀ d, t.deadline = some d → d < s →
      taskInFilter (some s) (some e) now t = true) := by
  have key : taskInFilter (some s) (some e) now t =
      (match t.deadline with
       | none => true
       | some d => decide (d ≤ e)) := by
    have hcv : (inLower (some s) now && inUpper (some e) now) = true := by
      simp [inLower, inUpper, h1, h2]
    cases hrd : t.recurringDays <;>
      · simp only [taskInFilter, hrec, hrd]
        rw [if_neg hc, if_neg hx, if_pos hcv]
        cases t.deadline <;> simp [inUpper]
  refine ⟨key, ?_⟩
  intro d hd hds
  rw [key, hd]
  simp only [decide_eq_true_eq]
  omega

/-- Witness for C4: an active task with a deadline before the window's start
is still included in a current window. -/
theorem c4_active_current_window_witness :
    taskInFilter (some 100) (some 200) 150
      ({ deadline := some 50, status := TaskStatus.TODO } : Task) = true :=
  (c4_active_current_window 100 200 150
    ({ deadline := some 50, status := TaskStatus.TODO } : Task)
    rfl (by decide) (by decide) (by decide) (by decide)).2 50 rfl (by decide)

/-- C6: moving a task to Completed or Cancelled produces, in one update: the
new status; the priority flag cleared; a running timer settled (elapsed set
to the computed current total, start marker cleared); and, on entering
Completed with no deadline, the deadline set to `now`. -/
theorem c6_terminal_status_update (t : Task) (newStatus : TaskStatus)
    (now : Int)
    (hterm : newStatus = TaskStatus.COMPLETED ∨
      newStatus = TaskStatus.CANCELLED) :
    (executeStatusUpdate t newStatus now).status = newStatus ∧
    (executeStatusUpdate t newStatus now).isPriority = false ∧
    (∀ s, t.timerStartedAt = some s →
      (executeStatusUpdate t newStatus now).elapsedTimeSeconds =
          calculateCurrentTaskTime t now ∧
      (executeStatusUpdate t newStatus now).timerStartedAt = none) ∧
    (newStatus = TaskStatus.COMPLETED → t.deadline = none →
      (executeStatusUpdate t newStatus now).deadline = some now) := by
  rcases hterm with h | h <;> subst h <;>
    cases ht : t.timerStartedAt <;> cases hd : t.deadline <;>
      simp [executeStatusUpdate, ht, hd, calculateCurrentTaskTime]

/-- Witness for C6: completing a backlog task with a running timer settles
the timer, clears priority, and stamps the deadline with `now`. -/
theorem c6_terminal_status_update_witness :
    (executeStatusUpdate
      ({ isPriority := true, elapsedTimeSeconds := 2,
         timerStartedAt := some 0 } : Task) TaskStatus.COMPLETED 3000).status =
        TaskStatus.COMPLETED ∧
    (executeStatusUpdate
      ({ isPriority := true, elapsedTimeSeconds := 2,
         timerStartedAt := some 0 } : Task)
        TaskStatus.COMPLETED 3000).isPriority = false ∧
    (executeStatusUpdate
      ({ isPriority := true, elapsedTimeSeconds := 2,
         timerStartedAt := some 0 } : Task)
        TaskStatus.COMPLETED 3000).elapsedTimeSeconds =
      calculateCurrentTaskTime
        ({ isPriority := true, elapsedTimeSeconds := 2,
           timerStartedAt := some 0 } : Task) 3000 ∧
    (executeStatusUpdate
      ({ isPriority := true, elapsedTimeSeconds := 2,
         timerStartedAt := some 0 } : Task)
        TaskStatus.COMPLETED 3000).timerStartedAt = none ∧
    (executeStatusUpdate
      ({ isPriority := true, elapsedTimeSeconds := 2,
         timerStartedAt := some 0 } : Task)
        TaskStatus.COMPLETED 3000).deadline = some 3000 := by
  have h := c6_terminal_status_update
    ({ isPriority := true, elapsedTimeSeconds := 2,
       timerStartedAt := some 0 } : Task) TaskStatus.COMPLETED 3000
    (Or.inl rfl)
  exact ⟨h.1, h.2.1, (h.2.2.1 0 rfl).1, (h.2.2.1 0 rfl).2, h.2.2.2 rfl rfl⟩

/-- `Int.log 2` is determined by a two-sided power sandwich. -/
theorem int_log2_eq (q : ℚ) (e : ℤ) (hq : 0 < q)
    (h1 : (2 : ℚ) ^ e ≤ q) (h2 : q < (2 : ℚ) ^ (e + 1)) :
    Int.log 2 q = e := by
  have hb : (1 : ℕ) < 2 := one_lt_two
  have hcast : ((2 : ℕ) : ℚ) = (2 : ℚ) := by norm_num
  have hle : e ≤ Int.log 2 q :=
    (Int.zpow_le_iff_le_log hb hq).mp (by rw [hcast]; exact h1)
  have hlt : Int.log 2 q < e + 1 :=
    (Int.lt_zpow_iff_log_lt hb hq).mp (by rw [hcast]; exact h2)
  omega

/-- Evaluation rule for `rnd53` in the round-down case: when the scaled
mantissa's fractional part is below one half, the rounded value is the
floored mantissa times the binade scale. -/
theorem rnd53_eq_down (q : ℚ) (e n : ℤ) (hq : 0 < q)
    (hlog : Int.log 2 q = e)
    (hn : ⌊q * (2 : ℚ) ^ (52 - e)⌋ = n)
    (hfrac : q * (2 : ℚ) ^ (52 - e) - (n : ℚ) < 1 / 2) :
    rnd53 q = (n : ℚ) * (2 : ℚ) ^ (e - 52) := by
  simp only [rnd53, hlog, hn]
  rw [if_neg (not_le.mpr hq), if_pos hfrac, neg_sub]

/-- The binary64 value nearest `23/40` lies strictly below it, and
multiplying it by 100 (with its own rounding) lands strictly below `57.5`:
the double pipeline for 23 of 40 yields `8092405580431359 · 2⁻⁴⁷ =
57.49999999999999289…`. -/
theorem rateDouble_23_40 :
    rateDouble 23 40 = (8092405580431359 : ℚ) * (2 : ℚ) ^ (-47 : ℤ) := by
  have h1 : rnd53 ((23 : ℚ) / 40) =
      ((5179139571476070 : ℤ) : ℚ) * (2 : ℚ) ^ ((-1 : ℤ) - 52) :=
    rnd53_eq_down ((23 : ℚ) / 40) (-1) 5179139571476070 (by norm_num)
      (int_log2_eq _ _ (by norm_num) (by norm_num) (by norm_num))
      (by norm_num) (by norm_num)
  have h2 : rnd53 (((5179139571476070 : ℤ) : ℚ) *
        (2 : ℚ) ^ ((-1 : ℤ) - 52) * 100) =
      ((8092405580431359 : ℤ) : ℚ) * (2 : ℚ) ^ ((5 : ℤ) - 52) :=
    rnd53_eq_down _ 5 8092405580431359 (by norm_num)
      (int_log2_eq _ _ (by norm_num) (by norm_num) (by norm_num))
      (by norm_num) (by norm_num)
  rw [rateDouble]
  push_cast
  rw [h1, h2]
  norm_num

/-- C9 counterexample: a filtered set of 40 tasks with 23 completed.  The
exact rational rounding the claim states gives `round(100 · 23/40) =
round(57.5) = 58`, but the double-precision evaluation the code performs
computes `(23/40)*100 = 57.49999999999999`, so `completionRate` returns 57:
the claimed equality with `round(100 * completed / total)` fails here. -/
theorem c9_round_counterexample :
    completionRate none none
        (List.replicate 23 ({ status := TaskStatus.COMPLETED } : Task) ++
          List.replicate 17 ({} : Task)) = 57 ∧
    round (((completedMetric none none
          (List.replicate 23 ({ status := TaskStatus.COMPLETED } : Task) ++
            List.replicate 17 ({} : Task)) : ℚ)) /
        (((List.replicate 23 ({ status := TaskStatus.COMPLETED } : Task) ++
            List.replicate 17 ({} : Task)).length : ℚ)) * 100) = 58 := by
  have hc : completedMetric none none
      (List.replicate 23 ({ status := TaskStatus.COMPLETED } : Task) ++
        List.replicate 17 ({} : Task)) = 23 := by decide
  have hl : (List.replicate 23 ({ status := TaskStatus.COMPLETED } : Task) ++
      List.replicate 17 ({} : Task)).length = 40 := by decide
  constructor
  · rw [completionRate, if_pos (by rw [hl]; norm_num), hc, hl,
      rateDouble_23_40, jsRound]
    norm_num
  · rw [hc, hl, round_eq]
    push_cast
    norm_num

/-- C9 amended: on an empty filtered set the completion rate is 0 (the
division is guarded, so no fault); on a non-empty set it equals
`Math.round` applied to the double-precision (binary64) evaluation of
`(completed / total) * 100` — the nearest integer to that double value,
ties toward positive infinity — which can fall one below the exact rational
rounding of `100 * completed / total` when representation error lands the
double just under a half-way point. -/
theorem c9_completionRate_double_spec (start? end? : Option Int)
    (l : List Task) :
    (l.length = 0 → completionRate start? end? l = 0) ∧
    (0 < l.length →
      completionRate start? end? l =
        jsRound (rateDouble (completedMetric start? end? l) l.length) ∧
      (completionRate start? end? l : ℚ) - 1 / 2 ≤
        rateDouble (completedMetric start? end? l) l.length ∧
      rateDouble (completedMetric start? end? l) l.length <
        (completionRate start? end? l : ℚ) + 1 / 2) := by
  constructor
  · intro h
    simp [completionRate, h]
  · intro h
    rw [completionRate, if_pos h]
    refine ⟨rfl, ?_, ?_⟩
    · have hle := Int.floor_le
        (rateDouble (completedMetric start? end? l) l.length + 1 / 2)
      rw [jsRound]
      linarith
    · have hlt := Int.lt_floor_add_one
        (rateDouble (completedMetric start? end? l) l.length + 1 / 2)
      rw [jsRound]
      linarith

/-- Witness for C9's amended claim: the empty set yields rate 0, and a
singleton completed set yields exactly 100 through the double pipeline. -/
theorem c9_completionRate_double_witness :
    completionRate none none ([] : List Task) = 0 ∧
    completionRate none none
      [({ status := TaskStatus.COMPLETED } : Task)] = 100 := by
  refine ⟨(c9_completionRate_double_spec none none []).1 rfl, ?_⟩
  have h := ((c9_completionRate_double_spec none none
    [({ status := TaskStatus.COMPLETED } : Task)]).2 (by decide)).1
  rw [h]
  have hc : completedMetric none none
      [({ status := TaskStatus.COMPLETED } : Task)] = 1 := by decide
  rw [hc]
  have h1 : rnd53 (1 : ℚ) =
      ((4503599627370496 : ℤ) : ℚ) * (2 : ℚ) ^ ((0 : ℤ) - 52) :=
    rnd53_eq_down 1 0 4503599627370496 (by norm_num)
      (int_log2_eq _ _ (by norm_num) (by norm_num) (by norm_num))
      (by norm_num) (by norm_num)
  have h2 : rnd53 (((4503599627370496 : ℤ) : ℚ) *
        (2 : ℚ) ^ ((0 : ℤ) - 52) * 100) =
      ((7036874417766400 : ℤ) : ℚ) * (2 : ℚ) ^ ((6 : ℤ) - 52) :=
    rnd53_eq_down _ 6 7036874417766400 (by norm_num)
      (int_log2_eq _ _ (by norm_num) (by norm_num) (by norm_num))
      (by norm_num) (by norm_num)
  rw [rateDouble]
  norm_num
  rw [h1, h2, jsRound]
  norm_num

/-- C2: for a recurring task with a weekday set, evaluated at `now` with
today inside the reporting window: with no cutoff set, lateToday is false;
with a cutoff `(h, m)`, lateToday is false when the task is suspended now,
when today's weekday is not in `recurringDays`, or when the last recurring
completion falls on today's calendar day, and otherwise it is true exactly
when the current time-of-day is strictly after the cutoff (hour strictly
greater, or equal hour and minute strictly greater); a time-of-day exactly
equal to the cutoff is not late. -/
theorem c2_recurringLate_spec (start? end? : Option Int) (t : Task)
    (now : Int) (days : List Int)
    (hrec : t.isRecurring = true) (hdays : t.recurringDays = some days)
    (hview1 : inLower start? now = true) (hview2 : inUpper end? now = true) :
    (t.recurringTime = none → isRecurringLate start? end? t now = false) ∧
    (∀ h m, t.recurringTime = some (h, m) →
      isRecurringLate start? end? t now =
        (!isTaskSuspended t now && days.contains (getDay now) &&
         !(t.lastRecurringCompletion.elim false (fun c => isSameDay c now)) &&
         decide (h < getHours now ∨
           (getHours now = h ∧ m < getMinutes now)))) ∧
    (∀ h m, t.recurringTime = some (h, m) → getHours now = h →
      getMinutes now = m → isRecurringLate start? end? t now = false) := by
  have main : ∀ h m, t.recurringTime = some (h, m) →
      isRecurringLate start? end? t now =
        (!isTaskSuspended t now && days.contains (getDay now) &&
         !(t.lastRecurringCompletion.elim false (fun c => isSameDay c now)) &&
         decide (h < getHours now ∨
           (getHours now = h ∧ m < getMinutes now))) := by
    intro h m htime
    simp only [isRecurringLate, hdays, htime, hrec, hview1, hview2,
      Bool.not_true, Bool.and_self, Bool.not_false]
    cases hsus : isTaskSuspended t now with
    | true => simp
    | false =>
      simp only [Bool.not_false, Bool.true_and, if_false, Bool.false_eq_true,
        if_true]
      cases hdc : days.contains (getDay now) with
      | false => simp
      | true =>
        simp only [Bool.not_true, Bool.true_and, Bool.false_eq_true, if_false]
        cases hlc : t.lastRecurringCompletion with
        | some c =>
          cases hsd : isSameDay c now with
          | true => simp [Option.elim]
          | false =>
            simp only [Option.elim, Bool.not_false, Bool.true_and,
              Bool.false_eq_true, if_false]
            by_cases h1 : h < getHours now
            · simp [h1]
            · by_cases h2 : getHours now = h
              · by_cases h3 : m < getMinutes now
                · simp [h1, h2, h3]
                · simp [h1, h2, h3]
              · simp [h1, h2]
        | none =>
          simp only [Option.elim, Bool.not_false, Bool.true_and,
            Bool.false_eq_true, if_false]
          by_cases h1 : h < getHours now
          · simp [h1]
          · by_cases h2 : getHours now = h
            · by_cases h3 : m < getMinutes now
              · simp [h1, h2, h3]
              · simp [h1, h2, h3]
            · simp [h1, h2]
  refine ⟨?_, main, ?_⟩
  · intro htno
    simp only [isRecurringLate, hdays, htno]
  · intro h m htime hH hM
    rw [main h m htime]
    simp [hH, hM]

/-- Witness for C2: on a Thursday with weekday set `{4}` and cutoff 10:30,
an uncompleted, unsuspended task is late at 11:00. -/
theorem c2_recurringLate_witness :
    isRecurringLate none none
      ({ isRecurring := true, recurringDays := some [4],
         recurringTime := some (10, 30) } : Task) 39600000 = true := by
  have h := (c2_recurringLate_spec none none
    ({ isRecurring := true, recurringDays := some [4],
       recurringTime := some (10, 30) } : Task) 39600000 [4]
    rfl rfl rfl rfl).2.1 10 30 rfl
  rw [h]
  decide

end TaskEngine
